import Mathlib

/-!
Shallow embedding of the trading-card shop's persistence layer
(`db.py`), its sample-data generator (`gen_data.py`) and the dispatch
logic of the command-line front end (`cli.py`).

The SQLite store is modelled as an in-memory structure.  Each table is a
list of rows in primary-key (rowid) order — SQLite keeps table rows in a
B-tree keyed by rowid, so a full table scan enumerates rows in ascending
id order; since ids are assigned by AUTOINCREMENT they are monotonically
increasing and the list representation is maintained by appending.
Machine integers are modelled as `Int` (prices and stocks can be
negative in inputs; the schema CHECK constraints reject them) and ids as
`Nat`.  A Python exception propagating out of an accessor is modelled as
an `Except.error` result paired with the unchanged store.
-/

namespace CardShop

/-- A row of the `cards` table (SCHEMA_SQL in db.py). -/
structure Card where
  id : Nat
  name : String
  set_name : String
  rarity : String
  price_cents : Int
  stock : Int
deriving Repr, DecidableEq

/-- A row of the `employees` table (SCHEMA_SQL in db.py). -/
structure Emp where
  id : Nat
  first_name : String
  last_name : String
  city : String
deriving Repr, DecidableEq

/-- The file-backed store: both tables (rows in rowid order) plus the
AUTOINCREMENT counters. -/
structure Store where
  cards : List Card
  nextCardId : Nat
  emps : List Emp
  nextEmpId : Nat
deriving Repr, DecidableEq

/-- A fresh store, as created by `ensure_schema` on a new file. -/
def emptyStore : Store := ⟨[], 1, [], 1⟩

/-- The exceptions an accessor can raise: sqlite3 CHECK-constraint
violations (`price_cents >= 0`, `stock >= 0`), sqlite3 UNIQUE
violations (`name`), and the `ValueError` raised by `int(identifier)`
on a digit string containing a non-decimal digit character. -/
inductive DbError where
  | checkViolation
  | uniqueViolation
  | valueError
deriving Repr, DecidableEq

/-- The character class of the spec's regex `^[0-9]+$`: the ASCII
decimal digits, codepoints 0x30–0x39. -/
def isDigitChar (c : Char) : Bool := 48 ≤ c.toNat && c.toNat ≤ 57

/-- Base codepoints of the contiguous runs of ten decimal digits in the
Unicode character database (Numeric_Type=Decimal, category Nd; version
14.0.0, the database CPython 3.11 uses).  A character `c` in the run
starting at `b` is the digit of value `c - b`; `int()` accepts exactly
these characters. -/
def decimalDigitBases : List Nat :=
  [0x30, 0x660, 0x6f0, 0x7c0, 0x966, 0x9e6, 0xa66, 0xae6, 0xb66, 0xbe6,
   0xc66, 0xce6, 0xd66, 0xde6, 0xe50, 0xed0, 0xf20, 0x1040, 0x1090, 0x17e0,
   0x1810, 0x1946, 0x19d0, 0x1a80, 0x1a90, 0x1b50, 0x1bb0, 0x1c40, 0x1c50, 0xa620,
   0xa8d0, 0xa900, 0xa9d0, 0xa9f0, 0xaa50, 0xabf0, 0xff10, 0x104a0, 0x10d30, 0x11066,
   0x110f0, 0x11136, 0x111d0, 0x112f0, 0x11450, 0x114d0, 0x11650, 0x116c0, 0x11730, 0x118e0,
   0x11950, 0x11c50, 0x11d50, 0x11da0, 0x16a60, 0x16ac0, 0x16b50, 0x1d7ce, 0x1d7d8, 0x1d7e2,
   0x1d7ec, 0x1d7f6, 0x1e140, 0x1e2f0, 0x1e950, 0x1fbf0]

/-- Codepoints with Numeric_Type=Digit but no decimal value (Unicode
14.0.0): `str.isdigit()` is true on them, yet `int()` rejects them with
a `ValueError` — e.g. 0xb2 is the superscript two. -/
def digitNonDecimalCodes : List Nat :=
  [0xb2, 0xb3, 0xb9, 0x1369, 0x136a, 0x136b, 0x136c, 0x136d, 0x136e, 0x136f,
   0x1370, 0x1371, 0x19da, 0x2070, 0x2074, 0x2075, 0x2076, 0x2077, 0x2078, 0x2079,
   0x2080, 0x2081, 0x2082, 0x2083, 0x2084, 0x2085, 0x2086, 0x2087, 0x2088, 0x2089,
   0x2460, 0x2461, 0x2462, 0x2463, 0x2464, 0x2465, 0x2466, 0x2467, 0x2468, 0x2474,
   0x2475, 0x2476, 0x2477, 0x2478, 0x2479, 0x247a, 0x247b, 0x247c, 0x2488, 0x2489,
   0x248a, 0x248b, 0x248c, 0x248d, 0x248e, 0x248f, 0x2490, 0x24ea, 0x24f5, 0x24f6,
   0x24f7, 0x24f8, 0x24f9, 0x24fa, 0x24fb, 0x24fc, 0x24fd, 0x24ff, 0x2776, 0x2777,
   0x2778, 0x2779, 0x277a, 0x277b, 0x277c, 0x277d, 0x277e, 0x2780, 0x2781, 0x2782,
   0x2783, 0x2784, 0x2785, 0x2786, 0x2787, 0x2788, 0x278a, 0x278b, 0x278c, 0x278d,
   0x278e, 0x278f, 0x2790, 0x2791, 0x2792, 0x10a40, 0x10a41, 0x10a42, 0x10a43, 0x10e60,
   0x10e61, 0x10e62, 0x10e63, 0x10e64, 0x10e65, 0x10e66, 0x10e67, 0x10e68, 0x11052, 0x11053,
   0x11054, 0x11055, 0x11056, 0x11057, 0x11058, 0x11059, 0x1105a, 0x1f100, 0x1f101, 0x1f102,
   0x1f103, 0x1f104, 0x1f105, 0x1f106, 0x1f107, 0x1f108, 0x1f109, 0x1f10a]

/-- The decimal value of a character if it has one (Numeric_Type=
Decimal), else `none`. -/
def decVal? (c : Char) : Option Nat :=
  (decimalDigitBases.find? fun b => b ≤ c.toNat && c.toNat < b + 10).map
    fun b => c.toNat - b

/-- CPython `str.isdigit()` on a single character: true for
Numeric_Type Decimal or Digit. -/
def pyIsDigitChar (c : Char) : Bool :=
  (decVal? c).isSome || digitNonDecimalCodes.contains c.toNat

/-- Model of Python's `str.isdigit()`: true iff the string is non-empty
and every character is a Unicode digit (Decimal or Digit). -/
def isdigit (s : String) : Bool := !s.data.isEmpty && s.data.all pyIsDigitChar

/-- Model of Python's `int(...)` as applied under the `isdigit` guard in
db.py: succeeds iff every character has a decimal value, producing the
base-10 number; otherwise (e.g. a superscript digit) `int()` raises
`ValueError`, modelled as `none`. -/
def intOfDigits (s : String) : Option Nat :=
  s.data.foldl
    (fun acc c =>
      match acc, decVal? c with
      | some a, some v => some (10 * a + v)
      | _, _ => none)
    (some 0)

/-- Decimal digit list of a natural number, most significant first. -/
def natDigits (n : Nat) : List Char :=
  if h : n < 10 then [Char.ofNat (48 + n)]
  else natDigits (n / 10) ++ [Char.ofNat (48 + n % 10)]
termination_by n
decreasing_by
  simp_wf
  exact Nat.div_lt_self (by omega) (by omega)

/-- Model of Python's `str(...)` applied to a natural number. -/
def pyStr (n : Nat) : String := ⟨natDigits n⟩

/-- The effective row predicate of the dispatch shared by `get_card`,
`update_card` and `delete_card` in db.py on runs where `int()` does not
raise: `identifier.isdigit()` selects `id = int(identifier)`, otherwise
`name = identifier`.  (When `int()` raises, the operation errors before
any row is tested; the `false` arm is never reached on such runs.) -/
def cardHit (identifier : String) (c : Card) : Bool :=
  if isdigit identifier then
    match intOfDigits identifier with
    | some n => c.id == n
    | none => false
  else c.name == identifier

/-- db.py `get_card`: `identifier.isdigit()` selects `WHERE id =
int(identifier)` — where `int()` may raise `ValueError` — otherwise
`WHERE name = identifier`; `fetchone` on the resulting query. -/
def get_card (identifier : String) (s : Store) : Except DbError (Option Card) :=
  if isdigit identifier then
    match intOfDigits identifier with
    | some n => .ok (s.cards.find? fun c => c.id == n)
    | none => .error .valueError
  else .ok (s.cards.find? fun c => c.name == identifier)

/-- db.py `list_cards`: `SELECT ... FROM cards ORDER BY id`. -/
def list_cards (s : Store) : List Card :=
  s.cards.insertionSort (fun a b => a.id ≤ b.id)

/-- db.py `list_emp`: `SELECT ... FROM employees ORDER BY id`. -/
def list_emp (s : Store) : List Emp :=
  s.emps.insertionSort (fun a b => a.id ≤ b.id)

/-- db.py `add_card`: `INSERT INTO cards(name, set_name, rarity,
price_cents, stock) VALUES (?,?,?,?,?)`, returning `lastrowid`.  SQLite
checks the CHECK constraints of the inserted row, then the UNIQUE
constraint on `name`; a violation raises and leaves the store
unchanged. -/
def add_card (name set_name rarity : String) (price_cents stock : Int)
    (s : Store) : Except DbError Nat × Store :=
  if price_cents < 0 || stock < 0 then (.error .checkViolation, s)
  else if s.cards.any (fun c => c.name == name) then (.error .uniqueViolation, s)
  else
    (.ok s.nextCardId,
      { s with
        cards := s.cards ++ [⟨s.nextCardId, name, set_name, rarity, price_cents, stock⟩]
        nextCardId := s.nextCardId + 1 })

/-- db.py `add_emp`: insert into `employees`, return `lastrowid`.  No
CHECK or UNIQUE constraints exist on this table. -/
def add_emp (first_name last_name city : String) (s : Store) : Nat × Store :=
  (s.nextEmpId,
    { s with
      emps := s.emps ++ [⟨s.nextEmpId, first_name, last_name, city⟩]
      nextEmpId := s.nextEmpId + 1 })

/-- The keyword arguments of db.py `update_card`: each field is either
supplied (`some`) or omitted (`none`, Python `None`). -/
structure CardUpdate where
  name : Option String
  set_name : Option String
  rarity : Option String
  price_cents : Option Int
  stock : Option Int
deriving Repr, DecidableEq

/-- `fields` is empty in db.py `update_card` iff no keyword argument was
supplied. -/
def CardUpdate.noFields (u : CardUpdate) : Bool :=
  u.name.isNone && u.set_name.isNone && u.rarity.isNone &&
    u.price_cents.isNone && u.stock.isNone

/-- The effect of `UPDATE cards SET <supplied fields> ...` on one row. -/
def applyUpdate (u : CardUpdate) (c : Card) : Card :=
  { c with
    name := u.name.getD c.name
    set_name := u.set_name.getD c.set_name
    rarity := u.rarity.getD c.rarity
    price_cents := u.price_cents.getD c.price_cents
    stock := u.stock.getD c.stock }

/-- The UPDATE statement of db.py `update_card` for a given row
predicate (`WHERE id = ?` or `WHERE name = ?`): rewrite the supplied
fields of every matching row and return `rowcount`.  SQLite checks the
CHECK constraints of each updated row and the UNIQUE name constraint
against the other rows; a violation raises and leaves the store
unchanged. -/
def updateCardBy (hit : Card → Bool) (u : CardUpdate) (s : Store) :
    Except DbError Nat × Store :=
  if (s.cards.filter hit).any
      (fun c => (applyUpdate u c).price_cents < 0 || (applyUpdate u c).stock < 0) then
    (.error .checkViolation, s)
  else if s.cards.any (fun c => hit c &&
      s.cards.any (fun d => !hit d && d.name == (applyUpdate u c).name)) then
    (.error .uniqueViolation, s)
  else
    (.ok (s.cards.countP hit),
      { s with cards :=
          s.cards.map fun c => if hit c then applyUpdate u c else c })

/-- db.py `update_card`: if no field was supplied, return 0 before
opening a connection or inspecting the identifier; otherwise dispatch —
`identifier.isdigit()` selects `WHERE id = int(identifier)` (where
`int()` may raise `ValueError`), otherwise `WHERE name = identifier` —
and run one UPDATE statement. -/
def update_card (identifier : String) (u : CardUpdate) (s : Store) :
    Except DbError Nat × Store :=
  if u.noFields then (.ok 0, s)
  else if isdigit identifier then
    match intOfDigits identifier with
    | some n => updateCardBy (fun c => c.id == n) u s
    | none => (.error .valueError, s)
  else updateCardBy (fun c => c.name == identifier) u s

/-- The keyword arguments of db.py `update_emp`. -/
structure EmpUpdate where
  first_name : Option String
  last_name : Option String
  city : Option String
deriving Repr, DecidableEq

/-- `fields` is empty in db.py `update_emp` iff no keyword argument was
supplied. -/
def EmpUpdate.noFields (u : EmpUpdate) : Bool :=
  u.first_name.isNone && u.last_name.isNone && u.city.isNone

/-- The effect of `UPDATE employees SET <supplied fields> ...` on one row. -/
def applyEmpUpdate (u : EmpUpdate) (e : Emp) : Emp :=
  { e with
    first_name := u.first_name.getD e.first_name
    last_name := u.last_name.getD e.last_name
    city := u.city.getD e.city }

/-- db.py `update_emp`: if no field was supplied, return 0 before
touching the store; otherwise `UPDATE employees ... WHERE id = ?` and
return `rowcount` (the `employees` table has no constraints that an
update could violate). -/
def update_emp (identifier : Nat) (u : EmpUpdate) (s : Store) : Nat × Store :=
  if u.noFields then (0, s)
  else
    (s.emps.countP (fun e => e.id == identifier),
      { s with emps :=
          s.emps.map fun e => if e.id == identifier then applyEmpUpdate u e else e })

/-- db.py `get_emp`: fetch a single employee by id. -/
def get_emp (identifier : Nat) (s : Store) : Option Emp :=
  s.emps.find? (fun e => e.id == identifier)

/-- db.py `delete_card`: `identifier.isdigit()` selects `DELETE FROM
cards WHERE id = int(identifier)` — where `int()` may raise
`ValueError` — otherwise `WHERE name = identifier`; returns
`rowcount`. -/
def delete_card (identifier : String) (s : Store) : Except DbError Nat × Store :=
  if isdigit identifier then
    match intOfDigits identifier with
    | some n =>
      (.ok (s.cards.countP fun c => c.id == n),
        { s with cards := s.cards.filter fun c => !(c.id == n) })
    | none => (.error .valueError, s)
  else
    (.ok (s.cards.countP fun c => c.name == identifier),
      { s with cards := s.cards.filter fun c => !(c.name == identifier) })

/-- db.py `delete_emp`: `DELETE FROM employees WHERE id = ?`. -/
def delete_emp (identifier : Nat) (s : Store) : Nat × Store :=
  (s.emps.countP (fun e => e.id == identifier),
    { s with emps := s.emps.filter (fun e => !(e.id == identifier)) })

/-- db.py `test1`: `SELECT ... FROM cards WHERE price_cents >= 500`,
with no ORDER BY — the scan enumerates the rowid B-tree, i.e. the
store's list order. -/
def test1 (s : Store) : List Card :=
  s.cards.filter (fun c => 500 ≤ c.price_cents)

/-- A generated card tuple of gen_data.py:
`(name, set_name, rarity, price_cents, stock)`. -/
structure CardRow where
  name : String
  set_name : String
  rarity : String
  price_cents : Int
  stock : Int
deriving Repr, DecidableEq

/-- The `RARITIES` pool of gen_data.py. -/
def RARITIES : List String := ["Common", "Uncommon", "Rare", "Mythic"]

/-- Lower bound of the inclusive `randint` range drawn by
`_price_for_rarity` in gen_data.py (the final branch covers Mythic). -/
def priceBandLo (rarity : String) : Int :=
  if rarity = "Common" then 50
  else if rarity = "Uncommon" then 200
  else if rarity = "Rare" then 500
  else 1500

/-- Upper bound of the inclusive `randint` range drawn by
`_price_for_rarity` in gen_data.py. -/
def priceBandHi (rarity : String) : Int :=
  if rarity = "Common" then 199
  else if rarity = "Uncommon" then 499
  else if rarity = "Rare" then 1499
  else 3999

/-- The row appended unconditionally at the top of `generate_cards`. -/
def thunderfury : CardRow :=
  ⟨"Thunderfury, Blessed Blade of the Windseeker", "Dark Portal", "Legendary", 100000, 1⟩

/-- The `while len(out) < count and attempts < count * 20` loop of
`generate_cards`, with the pseudo-random candidate of attempt `k`
abstracted as `cand k` (its name is drawn from the adjective/noun/suffix
pools, its rarity from a floating-point weighted roll, its price from
the rarity's `randint` band — draws the claims do not depend on and
floating-point rolls cannot be embedded exactly).  `fuel` is the number
of attempts remaining, `seen` is `names_seen`. -/
def genLoop (count : Nat) (cand : Nat → CardRow) :
    Nat → Nat → List String → List CardRow → List CardRow
  | 0, _, _, out => out
  | fuel + 1, k, seen, out =>
    if out.length < count then
      if seen.contains (cand k).name then genLoop count cand fuel (k + 1) seen out
      else genLoop count cand fuel (k + 1) ((cand k).name :: seen) (out ++ [cand k])
    else out

/-- gen_data.py `generate_cards`: `out` starts as the single hard-coded
Thunderfury row (whose name is not added to `names_seen`), then the
bounded retry loop appends deduplicated pseudo-random rows. -/
def generate_cards (count : Nat) (cand : Nat → CardRow) : List CardRow :=
  genLoop count cand (count * 20) 0 [] [thunderfury]

/-- A generated employee tuple of gen_data.py:
`(first_name, last_name, city)`. -/
structure EmployeeRow where
  first_name : String
  last_name : String
  city : String
deriving Repr, DecidableEq

/-- The bounded retry loop of `generate_employees`, candidates
abstracted as for `genLoop`; `seen` is `seen_full_names`. -/
def empLoop (count : Nat) (cand : Nat → EmployeeRow) :
    Nat → Nat → List (String × String) → List EmployeeRow → List EmployeeRow
  | 0, _, _, out => out
  | fuel + 1, k, seen, out =>
    if out.length < count then
      if seen.contains ((cand k).first_name, (cand k).last_name) then
        empLoop count cand fuel (k + 1) seen out
      else
        empLoop count cand fuel (k + 1)
          (((cand k).first_name, (cand k).last_name) :: seen) (out ++ [cand k])
    else out

/-- gen_data.py `generate_employees`: starts from an empty `out`. -/
def generate_employees (count : Nat) (cand : Nat → EmployeeRow) : List EmployeeRow :=
  empLoop count cand (count * 20) 0 [] []

/-- The `executemany` card insert of `init_db`: each row receives the
next AUTOINCREMENT id. -/
def insertCardRows : List CardRow → Store → Store
  | [], s => s
  | r :: t, s =>
    insertCardRows t
      { s with
        cards := s.cards ++ [⟨s.nextCardId, r.name, r.set_name, r.rarity, r.price_cents, r.stock⟩]
        nextCardId := s.nextCardId + 1 }

/-- The `executemany` employee insert of `init_db`. -/
def insertEmpRows : List EmployeeRow → Store → Store
  | [], s => s
  | r :: t, s =>
    insertEmpRows t
      { s with
        emps := s.emps ++ [⟨s.nextEmpId, r.first_name, r.last_name, r.city⟩]
        nextEmpId := s.nextEmpId + 1 }

/-- db.py `init_db`: create the tables if missing (a no-op on the
model), then seed each table with generated sample rows exactly when
its own `COUNT(*)` is zero — cards with `generate_cards(count=25)`,
employees with `generate_employees(count=4)`. -/
def init_db (cand : Nat → CardRow) (ecand : Nat → EmployeeRow) (s : Store) : Store :=
  let s1 := if s.cards.length = 0 then insertCardRows (generate_cards 25 cand) s else s
  if s1.emps.length = 0 then insertEmpRows (generate_employees 4 ecand) s1 else s1

/-- The identifier-lookup subcommands of cli.py `main`. -/
inductive Cmd where
  | get (identifier : String)
  | get_emp (identifier : Nat)
  | update (identifier : String) (u : CardUpdate)
  | update_e (identifier : Nat) (u : EmpUpdate)
  | delete (identifier : String)
  | delete_e (identifier : Nat)
deriving Repr, DecidableEq

/-- cli.py `main` restricted to the identifier-lookup subcommands:
returns the process exit code and the resulting store.  `get` and
`get_emp` print "Not found" and return 1 on an absent result; the
update and delete branches print the affected-row count and return 0.
An exception raised by an accessor is not caught and propagates
(`Except.error`), making the interpreter exit non-zero. -/
def cliMain (cmd : Cmd) (s : Store) : Except DbError (Nat × Store) :=
  match cmd with
  | .get identifier =>
    match get_card identifier s with
    | .ok none => .ok (1, s)
    | .ok (some _) => .ok (0, s)
    | .error e => .error e
  | .get_emp identifier =>
    match get_emp identifier s with
    | none => .ok (1, s)
    | some _ => .ok (0, s)
  | .update identifier u =>
    match update_card identifier u s with
    | (.ok _, s2) => .ok (0, s2)
    | (.error e, _) => .error e
  | .update_e identifier u => .ok (0, (update_emp identifier u s).2)
  | .delete identifier =>
    match delete_card identifier s with
    | (.ok _, s2) => .ok (0, s2)
    | (.error e, _) => .error e
  | .delete_e identifier => .ok (0, (delete_emp identifier s).2)

/-! ### Helper lemmas on digit strings and the dispatch -/

theorem decVal?_digit (d : Nat) (h : d < 10) :
    decVal? (Char.ofNat (48 + d)) = some d := by
  interval_cases d <;> decide

theorem pyIsDigitChar_digit (d : Nat) (h : d < 10) :
    pyIsDigitChar (Char.ofNat (48 + d)) = true := by
  interval_cases d <;> decide

theorem natDigits_ne_nil (n : Nat) : natDigits n ≠ [] := by
  rw [natDigits]
  by_cases h : n < 10 <;> simp [h]

theorem mem_natDigits (n : Nat) : ∀ c ∈ natDigits n, pyIsDigitChar c = true := by
  induction n using Nat.strong_induction_on with
  | _ n ih =>
    rw [natDigits]
    by_cases h : n < 10
    · simp only [dif_pos h, List.mem_singleton]
      rintro c rfl
      exact pyIsDigitChar_digit n h
    · simp only [dif_neg h, List.mem_append, List.mem_singleton]
      rintro c (hc | rfl)
      · exact ih (n / 10) (Nat.div_lt_self (by omega) (by omega)) c hc
      · exact pyIsDigitChar_digit (n % 10) (Nat.mod_lt _ (by omega))

theorem isdigit_pyStr (n : Nat) : isdigit (pyStr n) = true := by
  have hne := natDigits_ne_nil n
  have hmem := mem_natDigits n
  simp only [isdigit, pyStr, Bool.and_eq_true, Bool.not_eq_true', List.all_eq_true]
  exact ⟨by simpa [List.isEmpty_iff] using hne, hmem⟩

theorem intOfDigits_pyStr (n : Nat) : intOfDigits (pyStr n) = some n := by
  suffices h : ∀ m, (natDigits m).foldl
      (fun acc c =>
        match acc, decVal? c with
        | some a, some v => some (10 * a + v)
        | _, _ => none)
      (some 0) = some m by
    simpa [intOfDigits, pyStr] using h n
  intro m
  induction m using Nat.strong_induction_on with
  | _ m ih =>
    rw [natDigits]
    by_cases h : m < 10
    · simp only [dif_pos h, List.foldl_cons, List.foldl_nil, decVal?_digit m h]
      norm_num
    · simp only [dif_neg h, List.foldl_append, List.foldl_cons, List.foldl_nil]
      rw [ih (m / 10) (Nat.div_lt_self (by omega) (by omega))]
      rw [decVal?_digit (m % 10) (Nat.mod_lt _ (by omega))]
      have hm : 10 * (m / 10) + m % 10 = m := by omega
      simp [hm]

/-- An ASCII decimal digit has itself (minus 0x30) as decimal value. -/
theorem decVal?_of_ascii (c : Char) (h : isDigitChar c = true) :
    decVal? c = some (c.toNat - 48) := by
  simp only [isDigitChar, Bool.and_eq_true, decide_eq_true_eq] at h
  rw [decVal?, decimalDigitBases, List.find?_cons_of_pos]
  · rfl
  · simp only [Bool.and_eq_true, decide_eq_true_eq]
    omega

/-- Every `^[0-9]+$` character is a Unicode digit: the classification
is a strict superset of the spec's regex. -/
theorem pyIsDigitChar_of_ascii (c : Char) (h : isDigitChar c = true) :
    pyIsDigitChar c = true := by
  rw [pyIsDigitChar, decVal?_of_ascii c h]
  rfl

/-- When `isdigit` holds and `int()` succeeds, the dispatch predicate
is the id test. -/
theorem cardHit_eq_id (identifier : String) (n : Nat)
    (hd : isdigit identifier = true) (hn : intOfDigits identifier = some n) :
    cardHit identifier = fun c => c.id == n :=
  funext fun c => by rw [cardHit, if_pos hd, hn]

/-- When `isdigit` fails, the dispatch predicate is the exact-name
test. -/
theorem cardHit_eq_name (identifier : String) (hd : isdigit identifier = false) :
    cardHit identifier = fun c => c.name == identifier :=
  funext fun c => by rw [cardHit, if_neg (by simp [hd])]

/-- On identifiers where `int()` does not raise, `get_card` is the
`fetchone` of the dispatch predicate. -/
theorem get_card_ok (identifier : String) (s : Store)
    (hok : isdigit identifier = true → (intOfDigits identifier).isSome = true) :
    get_card identifier s = .ok (s.cards.find? (cardHit identifier)) := by
  by_cases hd : isdigit identifier
  · obtain ⟨n, hn⟩ := Option.isSome_iff_exists.mp (hok hd)
    rw [get_card, if_pos hd, hn, cardHit_eq_id identifier n hd hn]
  · rw [get_card, if_neg hd, cardHit_eq_name identifier (Bool.eq_false_iff.mpr hd)]

/-- On identifiers where `int()` does not raise, `delete_card` deletes
the rows matching the dispatch predicate and counts them. -/
theorem delete_card_ok (identifier : String) (s : Store)
    (hok : isdigit identifier = true → (intOfDigits identifier).isSome = true) :
    delete_card identifier s =
      (.ok (s.cards.countP (cardHit identifier)),
        { s with cards := s.cards.filter fun c => !cardHit identifier c }) := by
  by_cases hd : isdigit identifier
  · obtain ⟨n, hn⟩ := Option.isSome_iff_exists.mp (hok hd)
    rw [delete_card, if_pos hd, hn, cardHit_eq_id identifier n hd hn]
  · rw [delete_card, if_neg hd, cardHit_eq_name identifier (Bool.eq_false_iff.mpr hd)]

/-- On identifiers where `int()` does not raise, a non-empty
`update_card` runs the UPDATE statement on the dispatch predicate. -/
theorem update_card_run (identifier : String) (u : CardUpdate) (s : Store)
    (hne : u.noFields = false)
    (hok : isdigit identifier = true → (intOfDigits identifier).isSome = true) :
    update_card identifier u s = updateCardBy (cardHit identifier) u s := by
  by_cases hd : isdigit identifier
  · obtain ⟨n, hn⟩ := Option.isSome_iff_exists.mp (hok hd)
    rw [update_card, if_neg (by simp [hne]), if_pos hd, hn,
      cardHit_eq_id identifier n hd hn]
  · rw [update_card, if_neg (by simp [hne]), if_neg hd,
      cardHit_eq_name identifier (Bool.eq_false_iff.mpr hd)]

/-- A successful UPDATE statement rewrites exactly the matching rows. -/
theorem updateCardBy_ok (hit : Card → Bool) (u : CardUpdate) (s : Store)
    (n : Nat) (s2 : Store) (h : updateCardBy hit u s = (.ok n, s2)) :
    s2 = { s with cards := s.cards.map fun c => if hit c then applyUpdate u c else c } := by
  rw [updateCardBy] at h
  split at h
  · exact absurd h (by simp)
  · split at h
    · exact absurd h (by simp)
    · simp only [Prod.mk.injEq, Except.ok.injEq] at h
      exact h.2.symm

/-! ### Concrete sample data used by witnesses -/

/-- The card of the spec's concrete scenario. -/
def sampleCard : Card := ⟨1, "Flame Drake", "Embers Rising", "Common", 150, 10⟩

/-- A one-card store. -/
def sampleStore : Store := ⟨[sampleCard], 2, [⟨1, "Ava", "Smith", "Hammond"⟩], 2⟩

/-- A card update that supplies no field. -/
def noUpdate : CardUpdate := ⟨none, none, none, none, none⟩

/-- An employee update that supplies no field. -/
def noEmpUpdate : EmpUpdate := ⟨none, none, none⟩

/-! ### Claims -/

/-- C7: for every identifier, `update_card` (and likewise `update_emp`)
called with zero supplied fields returns 0 and leaves the store
completely untouched — a benign no-op, not an error. -/
theorem claim_C7 (identifier : String) (eid : Nat) (u : CardUpdate)
    (v : EmpUpdate) (s : Store)
    (hu : u.noFields = true) (hv : v.noFields = true) :
    update_card identifier u s = (.ok 0, s) ∧ update_emp eid v s = (0, s) := by
  constructor
  · rw [update_card, if_pos hu]
  · rw [update_emp, if_pos hv]

/-- Witness for C7 at a concrete store. -/
theorem claim_C7_witness :
    update_card "Flame Drake" noUpdate sampleStore = (.ok 0, sampleStore) ∧
      update_emp 1 noEmpUpdate sampleStore = (0, sampleStore) :=
  claim_C7 "Flame Drake" 1 noUpdate noEmpUpdate sampleStore rfl rfl

/-- C3: `add_card` fails with a unique-constraint error when the name
already exists, fails with a constraint-violation error when
`price_cents < 0` or `stock < 0`, and in every such failure the error
is propagated and the store is unchanged (no row inserted). -/
theorem claim_C3 (name set_name rarity : String) (price_cents stock : Int)
    (s : Store) :
    (price_cents < 0 ∨ stock < 0 →
      add_card name set_name rarity price_cents stock s = (.error .checkViolation, s)) ∧
    (0 ≤ price_cents → 0 ≤ stock → (∃ c ∈ s.cards, c.name = name) →
      add_card name set_name rarity price_cents stock s = (.error .uniqueViolation, s)) := by
  constructor
  · intro h
    rw [add_card, if_pos]
    rcases h with h | h <;> simp [h]
  · intro hp hs hdup
    rw [add_card, if_neg (by simp; omega), if_pos]
    obtain ⟨c, hc, hname⟩ := hdup
    exact List.any_eq_true.mpr ⟨c, hc, by simp [hname]⟩

/-- Witness for C3 at a concrete store: a negative price and a
duplicate name are both rejected without modifying the store. -/
theorem claim_C3_witness :
    add_card "New Card" "S" "R" (-1) 0 sampleStore = (.error .checkViolation, sampleStore) ∧
      add_card "Flame Drake" "S" "R" 100 0 sampleStore = (.error .uniqueViolation, sampleStore) :=
  ⟨(claim_C3 "New Card" "S" "R" (-1) 0 sampleStore).1 (Or.inl (by decide)),
    (claim_C3 "Flame Drake" "S" "R" 100 0 sampleStore).2 (by decide) (by decide)
      ⟨sampleCard, List.mem_singleton_self _, rfl⟩⟩

/-- C6 as stated is false: the identifier "²" (superscript two —
`isdigit()` true, but `int()` raises `ValueError`) matches no row of
the empty store, yet all three operations raise instead of returning
absent / affected count 0. -/
theorem claim_C6_counterexample :
    (∀ c ∈ emptyStore.cards, cardHit "²" c = false) ∧
    isdigit "²" = true ∧
    get_card "²" emptyStore = .error DbError.valueError ∧
    update_card "²" ⟨none, none, none, none, some 5⟩ emptyStore =
      (.error DbError.valueError, emptyStore) ∧
    delete_card "²" emptyStore = (.error DbError.valueError, emptyStore) :=
  ⟨by decide, by decide, rfl, rfl, rfl⟩

/-- C6 amended: for every identifier on which `int()` does not raise —
any non-digit identifier, or a digit identifier whose characters are
all decimal — a no-match get returns absent and update/delete return
affected count 0, without an exception, the store untouched; and
`delete_card` on such an identifier matching exactly one row returns 1,
after which `get_card` on the same identifier returns absent.  (A digit
identifier containing a non-decimal digit character instead raises
`ValueError` in all three operations.) -/
theorem claim_C6_amended (identifier ident2 : String) (u : CardUpdate) (s s2 : Store)
    (hok1 : isdigit identifier = true → (intOfDigits identifier).isSome = true)
    (hok2 : isdigit ident2 = true → (intOfDigits ident2).isSome = true)
    (hmiss : ∀ c ∈ s.cards, cardHit identifier c = false)
    (hhit : s2.cards.countP (cardHit ident2) = 1) :
    get_card identifier s = .ok none ∧
    update_card identifier u s = (.ok 0, s) ∧
    delete_card identifier s = (.ok 0, s) ∧
    (delete_card ident2 s2).1 = .ok 1 ∧
    get_card ident2 (delete_card ident2 s2).2 = .ok none := by
  refine ⟨?_, ?_, ?_, ?_, ?_⟩
  · rw [get_card_ok identifier s hok1]
    exact congrArg Except.ok
      (List.find?_eq_none.mpr fun c hc => by simp [hmiss c hc])
  · by_cases hu : u.noFields
    · rw [update_card, if_pos hu]
    · rw [update_card_run identifier u s (Bool.eq_false_iff.mpr hu) hok1]
      rw [updateCardBy, if_neg, if_neg]
      · have h0 : s.cards.countP (cardHit identifier) = 0 :=
          List.countP_eq_zero.mpr fun c hc => by simp [hmiss c hc]
        have hmap : ∀ l : List Card, (∀ c ∈ l, cardHit identifier c = false) →
            (l.map fun c => if cardHit identifier c then applyUpdate u c else c) = l := by
          intro l hl
          induction l with
          | nil => rfl
          | cons a t ih =>
            have h1 := hl a (List.mem_cons_self a t)
            have h2 := ih fun c hc => hl c (List.mem_cons_of_mem a hc)
            simp [h1, h2]
        rw [h0, hmap s.cards hmiss]
      · simp only [List.any_eq_true, not_exists, not_and, Bool.and_eq_true]
        intro c hc
        simp [hmiss c hc]
      · simp only [List.any_eq_true, not_exists, not_and]
        intro c hc
        rw [List.mem_filter] at hc
        simp [hmiss c hc.1] at hc
  · rw [delete_card_ok identifier s hok1]
    have h0 : s.cards.countP (cardHit identifier) = 0 :=
      List.countP_eq_zero.mpr fun c hc => by simp [hmiss c hc]
    have hfil : (s.cards.filter fun c => !cardHit identifier c) = s.cards :=
      List.filter_eq_self.mpr fun c hc => by simp [hmiss c hc]
    rw [h0, hfil]
  · rw [delete_card_ok ident2 s2 hok2, hhit]
  · rw [delete_card_ok ident2 s2 hok2, get_card_ok ident2 _ hok2]
    refine congrArg Except.ok (List.find?_eq_none.mpr fun c hc => ?_)
    have hmem := (List.mem_filter.mp hc).2
    simpa using hmem

/-- Witness for C6's amended statement: in the one-card sample store
the identifier "Ghost" matches nothing, while "Flame Drake" matches
exactly one row; neither makes `int()` raise. -/
theorem claim_C6_amended_witness :
    get_card "Ghost" sampleStore = .ok none ∧
    update_card "Ghost" noUpdate sampleStore = (.ok 0, sampleStore) ∧
    delete_card "Ghost" sampleStore = (.ok 0, sampleStore) ∧
    (delete_card "Flame Drake" sampleStore).1 = .ok 1 ∧
    get_card "Flame Drake" (delete_card "Flame Drake" sampleStore).2 = .ok none :=
  claim_C6_amended "Ghost" "Flame Drake" noUpdate sampleStore sampleStore
    (by decide) (by decide) (by decide) (by decide)

/-- C5: a partial update that supplies a non-empty subset of the fields
rewrites only the supplied fields of the matched rows: omitted fields
and the id keep their prior value, unmatched rows and the employees
table are untouched. -/
theorem claim_C5 (identifier : String) (u : CardUpdate) (s : Store)
    (n : Nat) (s2 : Store) (hne : u.noFields = false)
    (h : update_card identifier u s = (.ok n, s2)) :
    s2.cards = (s.cards.map fun c => if cardHit identifier c then applyUpdate u c else c) ∧
    s2.emps = s.emps ∧
    (∀ c, cardHit identifier c = false →
      (if cardHit identifier c then applyUpdate u c else c) = c) ∧
    (∀ c, (applyUpdate u c).id = c.id) ∧
    (∀ c, u.name = none → (applyUpdate u c).name = c.name) ∧
    (∀ c v, u.name = some v → (applyUpdate u c).name = v) ∧
    (∀ c, u.set_name = none → (applyUpdate u c).set_name = c.set_name) ∧
    (∀ c v, u.set_name = some v → (applyUpdate u c).set_name = v) ∧
    (∀ c, u.rarity = none → (applyUpdate u c).rarity = c.rarity) ∧
    (∀ c v, u.rarity = some v → (applyUpdate u c).rarity = v) ∧
    (∀ c, u.price_cents = none → (applyUpdate u c).price_cents = c.price_cents) ∧
    (∀ c v, u.price_cents = some v → (applyUpdate u c).price_cents = v) ∧
    (∀ c, u.stock = none → (applyUpdate u c).stock = c.stock) ∧
    (∀ c v, u.stock = some v → (applyUpdate u c).stock = v) := by
  have hmain : updateCardBy (cardHit identifier) u s = (.ok n, s2) := by
    rw [update_card, if_neg (by simp [hne])] at h
    by_cases hd : isdigit identifier
    · rw [if_pos hd] at h
      cases hp : intOfDigits identifier with
      | none =>
        rw [hp] at h
        exact absurd h (by simp)
      | some m =>
        rw [hp] at h
        rwa [cardHit_eq_id identifier m hd hp]
    · rw [if_neg hd] at h
      rwa [cardHit_eq_name identifier (Bool.eq_false_iff.mpr hd)]
  have hs := updateCardBy_ok (cardHit identifier) u s n s2 hmain
  subst hs
  refine ⟨rfl, rfl, fun c hc => by simp [hc], fun c => rfl, ?_⟩
  refine ⟨fun c hn => by simp [applyUpdate, hn], fun c v hn => by simp [applyUpdate, hn], ?_⟩
  refine ⟨fun c hn => by simp [applyUpdate, hn], fun c v hn => by simp [applyUpdate, hn], ?_⟩
  refine ⟨fun c hn => by simp [applyUpdate, hn], fun c v hn => by simp [applyUpdate, hn], ?_⟩
  refine ⟨fun c hn => by simp [applyUpdate, hn], fun c v hn => by simp [applyUpdate, hn], ?_⟩
  exact ⟨fun c hn => by simp [applyUpdate, hn], fun c v hn => by simp [applyUpdate, hn]⟩

/-- The partial update of the spec's scenario: only `stock` supplied. -/
def stockUpdate : CardUpdate := ⟨none, none, none, none, some 5⟩

/-- `sampleStore` after `update_card("Flame Drake", stock=5)`. -/
def updatedStore : Store :=
  ⟨[⟨1, "Flame Drake", "Embers Rising", "Common", 150, 5⟩], 2,
    [⟨1, "Ava", "Smith", "Hammond"⟩], 2⟩

/-- Witness for C5: updating only `stock` of the sample card. -/
theorem claim_C5_witness :
    updatedStore.cards =
      (sampleStore.cards.map fun c =>
        if cardHit "Flame Drake" c then applyUpdate stockUpdate c else c) ∧
    updatedStore.emps = sampleStore.emps :=
  ⟨(claim_C5 "Flame Drake" stockUpdate sampleStore 1 updatedStore rfl rfl).1,
    (claim_C5 "Flame Drake" stockUpdate sampleStore 1 updatedStore rfl rfl).2.1⟩

/-- `find?` over a list whose every element fails the predicate,
followed by one element that satisfies it, returns that element. -/
theorem find?_append_singleton {α : Type} (p : α → Bool) (l : List α) (x : α)
    (hl : ∀ a ∈ l, p a = false) (hx : p x = true) :
    (l ++ [x]).find? p = some x := by
  induction l with
  | nil => simp [List.find?, hx]
  | cons a t ih =>
    rw [List.cons_append, List.find?_cons, hl a (List.mem_cons_self a t)]
    exact ih fun b hb => hl b (List.mem_cons_of_mem a hb)

/-- C4: after a successful `add_card`, `get_card` on the decimal string
of the returned id finds a record whose fields equal the inserted
values (in particular `stock` is stored exactly as supplied; the Python
default used when the argument is omitted is 0, the instance
`stock = 0` of this theorem). -/
theorem claim_C4 (name set_name rarity : String) (price_cents stock : Int)
    (s : Store) (newId : Nat) (s2 : Store)
    (hwf : ∀ c ∈ s.cards, c.id < s.nextCardId)
    (h : add_card name set_name rarity price_cents stock s = (.ok newId, s2)) :
    get_card (pyStr newId) s2 =
      .ok (some ⟨newId, name, set_name, rarity, price_cents, stock⟩) := by
  rw [add_card] at h
  split at h
  · exact absurd h (by simp)
  · split at h
    · exact absurd h (by simp)
    · simp only [Prod.mk.injEq, Except.ok.injEq] at h
      obtain ⟨hid, hs⟩ := h
      subst hid
      subst hs
      rw [get_card, if_pos (isdigit_pyStr s.nextCardId), intOfDigits_pyStr]
      refine congrArg Except.ok (find?_append_singleton _ _ _ (fun c hc => ?_) ?_)
      · simpa using Nat.ne_of_lt (hwf c hc)
      · simp

/-- Witness for C4: inserting "Shadow Golem" into the sample store and
reading it back through the decimal string of its new id. -/
theorem claim_C4_witness :
    get_card (pyStr 2)
        ⟨[sampleCard, ⟨2, "Shadow Golem", "Verdant Vale", "Rare", 700, 3⟩], 3,
          [⟨1, "Ava", "Smith", "Hammond"⟩], 2⟩ =
      .ok (some ⟨2, "Shadow Golem", "Verdant Vale", "Rare", 700, 3⟩) :=
  claim_C4 "Shadow Golem" "Verdant Vale" "Rare" 700 3 sampleStore 2
    ⟨[sampleCard, ⟨2, "Shadow Golem", "Verdant Vale", "Rare", 700, 3⟩], 3,
      [⟨1, "Ava", "Smith", "Hammond"⟩], 2⟩
    (by decide) rfl

/-- C2: `test1` — the canned `cards_at_or_above_price` query with its
hard-coded threshold of 500 — returns exactly the cards whose
`price_cents` is at least 500 (the threshold is inclusive), in
ascending id order whenever the table rows are in ascending id order
(SQLite enumerates the rowid B-tree). -/
theorem claim_C2 (s : Store)
    (hsorted : (s.cards.map Card.id).Pairwise (· < ·)) :
    (∀ c, c ∈ test1 s ↔ c ∈ s.cards ∧ 500 ≤ c.price_cents) ∧
    ((test1 s).map Card.id).Pairwise (· < ·) := by
  constructor
  · intro c
    simp [test1, List.mem_filter, decide_eq_true_eq]
  · exact List.Pairwise.sublist (List.Sublist.map Card.id (List.filter_sublist s.cards)) hsorted

/-- Witness for C2 over the spec's seeded scenario: cards priced 150,
500 and 1499 — exactly the 500 and 1499 rows qualify, in id order. -/
theorem claim_C2_witness :
    (∀ c, c ∈ test1 ⟨[⟨1, "A", "S", "Common", 150, 0⟩, ⟨2, "B", "S", "Rare", 500, 0⟩,
        ⟨3, "C", "S", "Rare", 1499, 0⟩], 4, [], 1⟩ ↔
      c ∈ [⟨1, "A", "S", "Common", 150, 0⟩, ⟨2, "B", "S", "Rare", 500, 0⟩,
        (⟨3, "C", "S", "Rare", 1499, 0⟩ : Card)] ∧ 500 ≤ c.price_cents) ∧
    ((test1 ⟨[⟨1, "A", "S", "Common", 150, 0⟩, ⟨2, "B", "S", "Rare", 500, 0⟩,
        ⟨3, "C", "S", "Rare", 1499, 0⟩], 4, [], 1⟩).map Card.id).Pairwise (· < ·) :=
  claim_C2 ⟨[⟨1, "A", "S", "Common", 150, 0⟩, ⟨2, "B", "S", "Rare", 500, 0⟩,
    ⟨3, "C", "S", "Rare", 1499, 0⟩], 4, [], 1⟩ (by decide)

instance : IsTotal Card (fun a b => a.id ≤ b.id) :=
  ⟨fun a b => Nat.le_total a.id b.id⟩

instance : IsTrans Card (fun a b => a.id ≤ b.id) :=
  ⟨fun _ _ _ h1 h2 => Nat.le_trans h1 h2⟩

/-- A weakly increasing duplicate-free list of naturals is strictly
increasing. -/
theorem pairwise_lt_of_le_nodup {l : List Nat}
    (hle : l.Pairwise (· ≤ ·)) (hnd : l.Nodup) : l.Pairwise (· < ·) := by
  induction l with
  | nil => exact List.Pairwise.nil
  | cons a t ih =>
    rw [List.pairwise_cons] at hle ⊢
    rw [List.nodup_cons] at hnd
    refine ⟨fun b hb => lt_of_le_of_ne (hle.1 b hb) ?_, ih hle.2 hnd.2⟩
    intro hab
    exact hnd.1 (hab ▸ hb)

/-- C9: `list_cards` returns all card records (a permutation of the
table) and, whenever the ids are duplicate-free — the table's primary
key guarantees this — in strictly ascending id order, whatever order
the rows are stored in. -/
theorem claim_C9 (s : Store) :
    List.Perm (list_cards s) s.cards ∧
    ((s.cards.map Card.id).Nodup →
      ((list_cards s).map Card.id).Pairwise (· < ·)) := by
  have hperm : List.Perm (list_cards s) s.cards := List.perm_insertionSort _ s.cards
  refine ⟨hperm, fun hnd => ?_⟩
  have hsorted : (list_cards s).Pairwise (fun a b : Card => a.id ≤ b.id) :=
    List.sorted_insertionSort _ s.cards
  have hnd2 : ((list_cards s).map Card.id).Nodup :=
    (List.Perm.nodup_iff (hperm.map Card.id)).mpr hnd
  exact pairwise_lt_of_le_nodup (List.pairwise_map.mpr hsorted) hnd2

/-- Witness for C9 on a store whose rows sit in descending id order:
the listing still comes back ascending. -/
theorem claim_C9_witness :
    List.Perm
      (list_cards ⟨[⟨2, "B", "S", "Rare", 500, 0⟩, ⟨1, "A", "S", "Common", 150, 0⟩], 3, [], 1⟩)
      [⟨2, "B", "S", "Rare", 500, 0⟩, (⟨1, "A", "S", "Common", 150, 0⟩ : Card)] ∧
    ((list_cards ⟨[⟨2, "B", "S", "Rare", 500, 0⟩,
        ⟨1, "A", "S", "Common", 150, 0⟩], 3, [], 1⟩).map Card.id).Pairwise (· < ·) :=
  ⟨(claim_C9 ⟨[⟨2, "B", "S", "Rare", 500, 0⟩, ⟨1, "A", "S", "Common", 150, 0⟩], 3, [], 1⟩).1,
    (claim_C9 ⟨[⟨2, "B", "S", "Rare", 500, 0⟩, ⟨1, "A", "S", "Common", 150, 0⟩], 3, [], 1⟩).2
      (by decide)⟩

/-- C1 as stated is false: classification is CPython `str.isdigit`, a
strict superset of `^[0-9]+$`.  The identifier "٣" (Arabic-Indic three,
not an ASCII digit) is classified numeric and id-matched as 3, so a
card literally named "٣" is not found by name lookup; and "²"
(superscript two) is classified numeric and then `int()` raises instead
of any name lookup. -/
theorem claim_C1_counterexample :
    (¬∀ ch ∈ ("٣").data, isDigitChar ch = true) ∧
    isdigit "٣" = true ∧
    intOfDigits "٣" = some 3 ∧
    get_card "٣" ⟨[⟨1, "٣", "S", "Common", 100, 0⟩], 2, [], 1⟩ = .ok none ∧
    isdigit "²" = true ∧
    get_card "²" ⟨[⟨1, "²", "S", "Common", 100, 0⟩], 2, [], 1⟩ =
      .error DbError.valueError :=
  ⟨by decide, by decide, rfl, rfl, by decide, rfl⟩

/-- C1 amended: the card operations classify an identifier as numeric
exactly when it is non-empty and every character is a Unicode digit
(CPython `str.isdigit`, a superset of `^[0-9]+$`).  A numeric
identifier is passed to `int()`: if every character is a decimal digit
the lookup is by primary-key id, otherwise `int()` raises `ValueError`
(no lookup happens; for `update_card` only after the empty-fields
shortcut).  Non-numeric identifiers are looked up by exact,
case-sensitive name equality.  A card whose name is made of digit
characters is never resolved by name — the operation either id-matches
`int(name)` or raises — hence unreachable by name. -/
theorem claim_C1_amended (identifier : String) (u : CardUpdate) (s : Store) :
    (isdigit identifier = true ↔
      identifier.data ≠ [] ∧ ∀ ch ∈ identifier.data, pyIsDigitChar ch = true) ∧
    (identifier.data ≠ [] → (∀ ch ∈ identifier.data, isDigitChar ch = true) →
      isdigit identifier = true) ∧
    (∀ n, isdigit identifier = true → intOfDigits identifier = some n →
      get_card identifier s = .ok (s.cards.find? fun c => c.id == n) ∧
      (u.noFields = false →
        update_card identifier u s = updateCardBy (fun c => c.id == n) u s) ∧
      delete_card identifier s =
        (.ok (s.cards.countP fun c => c.id == n),
          { s with cards := s.cards.filter fun c => !(c.id == n) })) ∧
    (isdigit identifier = true → intOfDigits identifier = none →
      get_card identifier s = .error .valueError ∧
      (u.noFields = false → update_card identifier u s = (.error .valueError, s)) ∧
      delete_card identifier s = (.error .valueError, s)) ∧
    (isdigit identifier = false →
      get_card identifier s = .ok (s.cards.find? fun c => c.name == identifier) ∧
      (u.noFields = false →
        update_card identifier u s = updateCardBy (fun c => c.name == identifier) u s) ∧
      delete_card identifier s =
        (.ok (s.cards.countP fun c => c.name == identifier),
          { s with cards := s.cards.filter fun c => !(c.name == identifier) })) ∧
    (∀ c ∈ s.cards, isdigit c.name = true →
      (∀ d ∈ s.cards, intOfDigits c.name ≠ some d.id) →
      get_card c.name s = .error DbError.valueError ∨ get_card c.name s = .ok none) := by
  refine ⟨?_, ?_, ?_, ?_, ?_, ?_⟩
  · simp [isdigit, List.all_eq_true, List.isEmpty_iff]
  · intro hne hall
    simp only [isdigit, Bool.and_eq_true, Bool.not_eq_true', List.all_eq_true]
    exact ⟨by simpa [List.isEmpty_iff] using hne,
      fun ch hch => pyIsDigitChar_of_ascii ch (hall ch hch)⟩
  · intro n hd hn
    refine ⟨by rw [get_card, if_pos hd, hn], fun hne => ?_, by rw [delete_card, if_pos hd, hn]⟩
    rw [update_card, if_neg (by simp [hne]), if_pos hd, hn]
  · intro hd hn
    refine ⟨by rw [get_card, if_pos hd, hn], fun hne => ?_, by rw [delete_card, if_pos hd, hn]⟩
    rw [update_card, if_neg (by simp [hne]), if_pos hd, hn]
  · intro hd
    have hd2 : ¬isdigit identifier = true := by simp [hd]
    refine ⟨by rw [get_card, if_neg hd2], fun hne => ?_, by rw [delete_card, if_neg hd2]⟩
    rw [update_card, if_neg (by simp [hne]), if_neg hd2]
  · intro c hc hdig hnoid
    cases hp : intOfDigits c.name with
    | none =>
      exact Or.inl (by rw [get_card, if_pos hdig, hp])
    | some n =>
      refine Or.inr ?_
      rw [get_card, if_pos hdig, hp]
      refine congrArg Except.ok (List.find?_eq_none.mpr fun d hd => ?_)
      have := hnoid d hd
      rw [hp] at this
      simp only [beq_iff_eq]
      intro hdn
      exact this (by rw [hdn])

/-- Witness for C1's amended statement: the all-ASCII-digit identifier
"7" is id-dispatched, and the card literally named "7" (stored under
id 1) cannot be fetched by its own name. -/
theorem claim_C1_amended_witness :
    (isdigit "7" = true ↔
      ("7").data ≠ [] ∧ ∀ ch ∈ ("7").data, pyIsDigitChar ch = true) ∧
    get_card "7" ⟨[⟨1, "7", "S", "Common", 100, 0⟩], 2, [], 1⟩ =
      .ok (List.find? (fun c => c.id == 7) [⟨1, "7", "S", "Common", 100, 0⟩]) ∧
    (get_card "7" ⟨[⟨1, "7", "S", "Common", 100, 0⟩], 2, [], 1⟩ =
        .error DbError.valueError ∨
      get_card "7" ⟨[⟨1, "7", "S", "Common", 100, 0⟩], 2, [], 1⟩ = .ok none) :=
  ⟨(claim_C1_amended "7" noUpdate ⟨[⟨1, "7", "S", "Common", 100, 0⟩], 2, [], 1⟩).1,
    ((claim_C1_amended "7" noUpdate ⟨[⟨1, "7", "S", "Common", 100, 0⟩], 2, [], 1⟩).2.2.1
      7 (by decide) (by decide)).1,
    (claim_C1_amended "7" noUpdate ⟨[⟨1, "7", "S", "Common", 100, 0⟩], 2, [], 1⟩).2.2.2.2.2
      ⟨1, "7", "S", "Common", 100, 0⟩ (List.mem_singleton_self _) (by decide) (by decide)⟩

/-- C8 as stated is false: `cli.py main` returns exit code 0 from the
`delete` branch even when the identifier matched no row.  Concretely,
`delete 1` on an empty store finds nothing yet exits 0. -/
theorem claim_C8_counterexample :
    get_card "1" emptyStore = .ok none ∧
    cliMain (Cmd.delete "1") emptyStore = .ok (0, emptyStore) :=
  ⟨rfl, rfl⟩

/-- C8 amended: only the `get` and `get_emp` subcommands exit non-zero
(code 1) when their lookup completes and yields no match, and 0 on a
match; the `update`, `update_e`, `delete` and `delete_e` subcommands
print the affected-row count and exit 0 whenever the accessor
completes, whether or not a row matched; an accessor exception — a
constraint violation, or `int()`'s `ValueError` on a digit identifier
with a non-decimal character — propagates uncaught (non-zero
interpreter exit). -/
theorem claim_C8_amended (s : Store) (identC : String) (identE : Nat)
    (u : CardUpdate) (v : EmpUpdate) :
    (get_card identC s = .ok none → cliMain (.get identC) s = .ok (1, s)) ∧
    (∀ c, get_card identC s = .ok (some c) → cliMain (.get identC) s = .ok (0, s)) ∧
    (∀ e, get_card identC s = .error e → cliMain (.get identC) s = .error e) ∧
    (get_emp identE s = none → cliMain (.get_emp identE) s = .ok (1, s)) ∧
    (∀ e, get_emp identE s = some e → cliMain (.get_emp identE) s = .ok (0, s)) ∧
    (∀ n s2, delete_card identC s = (.ok n, s2) →
      cliMain (.delete identC) s = .ok (0, s2)) ∧
    (∀ e s2, delete_card identC s = (.error e, s2) →
      cliMain (.delete identC) s = .error e) ∧
    cliMain (.delete_e identE) s = .ok (0, (delete_emp identE s).2) ∧
    cliMain (.update_e identE v) s = .ok (0, (update_emp identE v s).2) ∧
    (∀ n s2, update_card identC u s = (.ok n, s2) →
      cliMain (.update identC u) s = .ok (0, s2)) ∧
    (∀ e s2, update_card identC u s = (.error e, s2) →
      cliMain (.update identC u) s = .error e) := by
  refine ⟨fun h => by simp [cliMain, h], fun c h => by simp [cliMain, h],
    fun e h => by simp [cliMain, h],
    fun h => by simp [cliMain, h], fun e h => by simp [cliMain, h],
    fun n s2 h => by simp [cliMain, h], fun e s2 h => by simp [cliMain, h],
    rfl, rfl,
    fun n s2 h => by simp [cliMain, h], fun e s2 h => by simp [cliMain, h]⟩

/-- Witness for C8's amended statement: on the empty store a missing
card makes `get` exit 1, while `delete` of the same identifier
completes with 0 rows and exits 0. -/
theorem claim_C8_amended_witness :
    cliMain (Cmd.get "Ghost") emptyStore = .ok (1, emptyStore) ∧
    cliMain (Cmd.delete "Ghost") emptyStore = .ok (0, emptyStore) :=
  ⟨(claim_C8_amended emptyStore "Ghost" 1 noUpdate noEmpUpdate).1 rfl,
    (claim_C8_amended emptyStore "Ghost" 1 noUpdate noEmpUpdate).2.2.2.2.2.1
      0 emptyStore rfl⟩

/-- Whatever the remaining fuel, the generation loop only ever appends
to the accumulated output. -/
theorem genLoop_eq_append (count : Nat) (cand : Nat → CardRow) :
    ∀ fuel k seen out, ∃ t, genLoop count cand fuel k seen out = out ++ t := by
  intro fuel
  induction fuel with
  | zero => exact fun k seen out => ⟨[], by simp [genLoop]⟩
  | succ f ih =>
    intro k seen out
    simp only [genLoop]
    by_cases h : out.length < count
    · rw [if_pos h]
      by_cases hc : seen.contains (cand k).name
      · rw [if_pos hc]
        exact ih (k + 1) seen out
      · rw [if_neg hc]
        obtain ⟨t, ht⟩ := ih (k + 1) ((cand k).name :: seen) (out ++ [cand k])
        exact ⟨cand k :: t, by rw [ht, List.append_assoc]; rfl⟩
    · rw [if_neg h]
      exact ⟨[], (List.append_nil out).symm⟩

/-- Cards already present survive a bulk insert of generated rows. -/
theorem insertCardRows_mem (rows : List CardRow) (st : Store) (c : Card)
    (hc : c ∈ st.cards) : c ∈ (insertCardRows rows st).cards := by
  induction rows generalizing st with
  | nil => exact hc
  | cons r t ih =>
    rw [insertCardRows]
    exact ih _ (List.mem_append_left _ hc)

/-- Seeding employees does not touch the cards table. -/
theorem insertEmpRows_cards (rows : List EmployeeRow) (st : Store) :
    (insertEmpRows rows st).cards = st.cards := by
  induction rows generalizing st with
  | nil => rfl
  | cons r t ih => rw [insertEmpRows, ih]

/-- C10: `generate_cards` always places the hard-coded Thunderfury row
first; `generate_cards 0` returns that one row rather than an empty
list; its rarity "Legendary" lies outside the generator's rarity pool
and its price outside every rarity's price band; and a store whose
cards table is empty is seeded by `init_db` with a card of that
rarity. -/
theorem claim_C10 (count : Nat) (cand : Nat → CardRow)
    (ecand : Nat → EmployeeRow) (s : Store) (hempty : s.cards = []) :
    (∃ t, generate_cards count cand = thunderfury :: t) ∧
    generate_cards 0 cand = [thunderfury] ∧
    thunderfury.rarity = "Legendary" ∧
    "Legendary" ∉ RARITIES ∧
    (∀ r ∈ RARITIES, ¬(priceBandLo r ≤ thunderfury.price_cents ∧
      thunderfury.price_cents ≤ priceBandHi r)) ∧
    (∃ c ∈ (init_db cand ecand s).cards, c.rarity = "Legendary") := by
  refine ⟨?_, rfl, rfl, by decide, by decide, ?_⟩
  · obtain ⟨t, ht⟩ := genLoop_eq_append count cand (count * 20) 0 [] [thunderfury]
    exact ⟨t, by rw [generate_cards, ht]; rfl⟩
  · have hc : (init_db cand ecand s).cards =
        (insertCardRows (generate_cards 25 cand) s).cards := by
      rw [init_db]
      simp only [hempty, List.length_nil, if_true]
      split
      · rw [insertEmpRows_cards]
      · rfl
    rw [hc]
    obtain ⟨t, ht⟩ := genLoop_eq_append 25 cand (25 * 20) 0 [] [thunderfury]
    rw [generate_cards, ht]
    rw [show [thunderfury] ++ t = thunderfury :: t from rfl, insertCardRows]
    refine ⟨⟨s.nextCardId, thunderfury.name, thunderfury.set_name, thunderfury.rarity,
      thunderfury.price_cents, thunderfury.stock⟩, ?_, rfl⟩
    exact insertCardRows_mem t _ _
      (List.mem_append_right _ (List.mem_singleton_self _))

/-- Witness for C10 with a constant candidate stream over the empty
store. -/
theorem claim_C10_witness :
    (∃ t, generate_cards 3 (fun _ => thunderfury) = thunderfury :: t) ∧
    generate_cards 0 (fun _ => thunderfury) = [thunderfury] ∧
    thunderfury.rarity = "Legendary" ∧
    "Legendary" ∉ RARITIES ∧
    (∀ r ∈ RARITIES, ¬(priceBandLo r ≤ thunderfury.price_cents ∧
      thunderfury.price_cents ≤ priceBandHi r)) ∧
    (∃ c ∈ (init_db (fun _ => thunderfury) (fun _ => ⟨"Ava", "Smith", "Hammond"⟩)
      emptyStore).cards, c.rarity = "Legendary") :=
  claim_C10 3 (fun _ => thunderfury) (fun _ => ⟨"Ava", "Smith", "Hammond"⟩)
    emptyStore rfl

end CardShop
